import Mathlib

/-!
# NCT5104D watchdog driver (nct5104_wdt.c)

A shallow embedding of the driver.  The driver talks to the Super I/O chip
through two ports (index 0x2E, data 0x2F); the kernel services it calls
(`request_muxed_region`, `release_region`, `outb`, `inb`, `pr_err`,
`watchdog_register_device`) and the chip behind the ports are modelled as an
explicit `World` that every driver function threads through.  Every port access
and every region request is appended to `World.trace`.
-/

namespace NCT5104

/-! ## Constants of the source -/

abbrev WATCHDOG_TIMEOUT : Nat := 60
abbrev WATCHDOG_TIMEOUT_MAX : Nat := 255
abbrev REG_CHIP_ID : Nat := 0x20
abbrev NCT5104D_ID_REV_B : Nat := 0xC452
abbrev NCT5104D_ID_REV_C : Nat := 0xC453
abbrev REG_EN : Nat := 0x2E
abbrev REG_IDX : Nat := REG_EN
abbrev REG_VAL : Nat := REG_IDX + 1
abbrev REG_LDN : Nat := 0x07
abbrev LDN_WDT : Nat := 0x08
abbrev REG_WDT_STATUS : Nat := 0x30
abbrev REG_WDT_CNTR_MODE : Nat := 0xF0
abbrev REG_WDT_CNTR_VALUE : Nat := 0xF1
abbrev REG_WDT_CTRL_STATUS : Nat := 0xF2

abbrev EBUSY : Int := 16
abbrev ENODEV : Int := 19
abbrev EINVAL : Int := 22

/-- The kernel macro `BIT(n)`, an `unsigned long` with only bit `n` set. -/
def BIT (n : Nat) : Nat := 1 <<< n

/-- The C operator `~` on an `unsigned long` (64 bits). -/
def lnot (x : Nat) : Nat := 2 ^ 64 - 1 - x % 2 ^ 64

/-- Conversion to `u8` (assignment to a `u8` variable, the value operand of
`outb`, the result of `inb`). -/
def u8 (x : Nat) : Nat := x % 256

/-! ## The environment: ports, region, chip -/

/-- One observable action on the two-port window. `request ok` is a call of
`request_muxed_region(REG_EN, 2, ..)` and whether it returned a region;
`outb val port` and `inb port val` carry the byte that crossed the port. -/
inductive Event where
  | request (ok : Bool)
  | release
  | outb (val port : Nat)
  | inb (port val : Nat)
deriving DecidableEq, Repr

/-- Configuration mode of the chip: normal, one key byte received, extended
function mode. -/
inductive Mode where
  | normal
  | key1
  | ext
deriving DecidableEq, Repr

/-- A register write that reached the chip: to a global register, or to a
register of the bank of logical device `ldn`. -/
inductive RegWrite where
  | glob (idx val : Nat)
  | dev (ldn idx val : Nat)
deriving DecidableEq, Repr

/-- The Super I/O chip as seen through the index/data ports. Registers below
0x30 are global (0x07 selects the logical device, 0x20/0x21 hold the chip
identification); registers from 0x30 on belong to the bank of the selected
logical device. `wlog` lists the register writes that landed, oldest first. -/
structure Chip where
  mode : Mode
  idx : Nat
  glob : Nat → Nat
  bank : Nat → Nat → Nat
  wlog : List RegWrite

/-- Diagnostics the driver emits with `pr_err`. -/
inductive Diag where
  | invalid_timeout (t : Nat)
  | reserved_bit
  | cant_access_hw
  | chip_id_fault (chip_id : Nat)
  | cannot_register (ret : Int)
deriving DecidableEq, Repr

/-- Everything outside the driver. `held`: the region 0x2E..0x2F is reserved;
`debug`: `pr_debug` is compiled in, so its arguments are evaluated;
`register_ret`: what `watchdog_register_device` returns when called. -/
structure World where
  held : Bool
  chip : Chip
  trace : List Event
  debug : Bool
  errs : List Diag
  register_ret : Int
  registered : Bool

/-- The logical device currently selected (global register 0x07). -/
def Chip.ldn (c : Chip) : Nat := u8 (c.glob REG_LDN)

/-- The byte held by the register of logical device `l` at index `i`. -/
def Chip.reg (c : Chip) (l i : Nat) : Nat :=
  if i < 0x30 then u8 (c.glob i) else u8 (c.bank l i)

/-- Register read through the data port at index `i`. -/
def Chip.rd (c : Chip) (i : Nat) : Nat := c.reg c.ldn i

/-- Register write through the data port at index `i`. -/
def Chip.wr (c : Chip) (i v : Nat) : Chip :=
  if i < 0x30 then
    { c with glob := Function.update c.glob i v,
             wlog := c.wlog ++ [RegWrite.glob i v] }
  else
    { c with bank := Function.update c.bank c.ldn (Function.update (c.bank c.ldn) i v),
             wlog := c.wlog ++ [RegWrite.dev c.ldn i v] }

/-- The chip's reaction to a byte written to a port. Two successive 0x87 on
the index port enter extended function mode; there 0xAA on the index port
leaves it, any other byte on the index port latches the register index, and a
byte on the data port is written to the latched register. -/
def Chip.outb (c : Chip) (v port : Nat) : Chip :=
  if port = REG_IDX then
    match c.mode with
    | Mode.ext => if v = 0xAA then { c with mode := Mode.normal } else { c with idx := v }
    | Mode.key1 => if v = 0x87 then { c with mode := Mode.ext } else { c with mode := Mode.normal }
    | Mode.normal => if v = 0x87 then { c with mode := Mode.key1 } else c
  else if port = REG_VAL then
    match c.mode with
    | Mode.ext => c.wr c.idx v
    | _ => c
  else c

/-- The byte the chip puts on a port when read. -/
def Chip.inb (c : Chip) (port : Nat) : Nat :=
  match c.mode with
  | Mode.ext => if port = REG_IDX then u8 c.idx else if port = REG_VAL then c.rd c.idx else 0xFF
  | _ => 0xFF

/-- Kernel `outb(value, port)`; `value` is a `u8`. -/
def outb (val port : Nat) (w : World) : World :=
  { w with chip := w.chip.outb (u8 val) port, trace := w.trace ++ [Event.outb (u8 val) port] }

/-- Kernel `inb(port)`. -/
def inb (port : Nat) (w : World) : Nat × World :=
  (w.chip.inb port, { w with trace := w.trace ++ [Event.inb port (w.chip.inb port)] })

/-- Kernel `request_muxed_region(REG_EN, 2, MODULE_NAME)`: fails when the
region is reserved, reserves it otherwise. -/
def request_muxed_region (w : World) : Bool × World :=
  if w.held then (false, { w with trace := w.trace ++ [Event.request false] })
  else (true, { w with held := true, trace := w.trace ++ [Event.request true] })

/-- Kernel `release_region(REG_EN, 2)`. -/
def release_region (w : World) : World :=
  { w with held := false, trace := w.trace ++ [Event.release] }

/-- Kernel `pr_err`. -/
def pr_err (d : Diag) (w : World) : World := { w with errs := w.errs ++ [d] }

/-- Kernel `watchdog_register_device(&wdd)`. -/
def watchdog_register_device (w : World) : Int × World :=
  if w.register_ret = 0 then (0, { w with registered := true }) else (w.register_ret, w)

/-! ## The driver -/

/-- The fields of `struct watchdog_device` the driver uses. -/
structure watchdog_device where
  timeout : Nat
  min_timeout : Nat
  max_timeout : Nat
deriving DecidableEq, Repr

/-- The driver's device `wdd`. -/
def wdd : watchdog_device :=
  { timeout := WATCHDOG_TIMEOUT, min_timeout := 1, max_timeout := WATCHDOG_TIMEOUT_MAX }

def superio_enter (w : World) : Int × World :=
  let r := request_muxed_region w
  if r.1 = false then (-EBUSY, r.2)
  else
    let w1 := outb 0x87 REG_EN r.2
    let w2 := outb 0x87 REG_EN w1
    (0, w2)

def superio_exit (w : World) : World :=
  release_region (outb 0xAA REG_EN w)

def superio_inb (reg : Nat) (w : World) : Nat × World :=
  inb REG_VAL (outb reg REG_IDX w)

def superio_outb (val reg : Nat) (w : World) : World :=
  outb val REG_VAL (outb reg REG_IDX w)

def superio_inw (reg : Nat) (w : World) : Nat × World :=
  let w1 := outb reg REG_IDX w
  let reg1 := reg + 1
  let r1 := inb REG_VAL w1
  let val := r1.1 <<< 8
  let w3 := outb reg1 REG_IDX r1.2
  let r2 := inb REG_VAL w3
  (val ||| r2.1, r2.2)

def superio_select (ldn : Nat) (w : World) : World := superio_outb ldn REG_LDN w

def wdt_select (w : World) : World := superio_select LDN_WDT w

/-- The `superio_inb` calls that stand as arguments of a `pr_debug`: made only
when `pr_debug` is compiled in, here in the order the arguments are written
(C leaves the order open). -/
def pr_debug_reads (regs : List Nat) (w : World) : World :=
  if w.debug then regs.foldl (fun acc r => (superio_inb r acc).2) w else w

def wdt_set_timeout (wdev : watchdog_device) (t : Nat) (w : World) :
    Int × watchdog_device × World :=
  if t < wdev.min_timeout ∨ t > wdev.max_timeout then
    (-EINVAL, wdev, pr_err (Diag.invalid_timeout t) w)
  else
    let r := superio_enter w
    if r.1 ≠ 0 then (r.1, wdev, r.2)
    else
      let w1 := wdt_select r.2
      let w2 := superio_outb t REG_WDT_CNTR_VALUE w1
      let w3 := superio_exit w2
      (0, { wdev with timeout := t }, w3)

def wdt_start (wdev : watchdog_device) (w : World) : Int × World :=
  let r := superio_enter w
  if r.1 ≠ 0 then (r.1, r.2)
  else
    let w1 := wdt_select r.2
    let w2 := pr_debug_reads
      [REG_WDT_STATUS, REG_WDT_CTRL_STATUS, REG_WDT_CNTR_MODE, REG_WDT_CNTR_VALUE] w1
    -- clear the Time-out event status bit
    let a := superio_inb REG_WDT_CTRL_STATUS w2
    let reg := u8 (a.1 &&& lnot (BIT 4))
    let w3 := superio_outb reg REG_WDT_CTRL_STATUS a.2
    -- set the timeout counter
    let w4 := superio_outb wdev.timeout REG_WDT_CNTR_VALUE w3
    -- set WDT active
    let b := superio_inb REG_WDT_STATUS w4
    let reg := u8 (b.1 ||| 1)
    let w5 := superio_outb reg REG_WDT_STATUS b.2
    let w6 := pr_debug_reads
      [REG_WDT_STATUS, REG_WDT_CTRL_STATUS, REG_WDT_CNTR_MODE, REG_WDT_CNTR_VALUE] w5
    let w7 := pr_debug_reads [REG_LDN] w6
    -- sanity check for misbehaving chip
    let c := superio_inb REG_WDT_CNTR_MODE w7
    let reg := u8 c.1
    let w8 := if reg &&& BIT 0 ≠ 0 then pr_err Diag.reserved_bit c.2 else c.2
    let w9 := superio_exit w8
    (0, w9)

def wdt_stop (_wdev : watchdog_device) (w : World) : Int × World :=
  let r := superio_enter w
  if r.1 ≠ 0 then (r.1, r.2)
  else
    let w1 := wdt_select r.2
    let w2 := superio_outb 0 REG_WDT_CNTR_VALUE w1
    let w3 := superio_exit w2
    (0, w3)

def wdt_get_timeleft (_wdev : watchdog_device) (w : World) : Nat × World :=
  let r := superio_enter w
  if r.1 ≠ 0 then (0, pr_err Diag.cant_access_hw r.2)
  else
    let w1 := wdt_select r.2
    let a := superio_inb REG_WDT_CNTR_VALUE w1
    let timeleft := a.1
    let w2 := pr_debug_reads [REG_WDT_CTRL_STATUS, REG_WDT_CNTR_MODE] a.2
    let w3 := superio_exit w2
    (timeleft, w3)

def wdt_probe (w : World) : Int × World :=
  let r := superio_enter w
  if r.1 ≠ 0 then (r.1, r.2)
  else
    let a := superio_inw REG_CHIP_ID r.2
    let chip_id := a.1
    let ret : Int := -ENODEV
    let s : Int × World :=
      if chip_id = NCT5104D_ID_REV_B ∨ chip_id = NCT5104D_ID_REV_C then (0, a.2)
      else if chip_id = 0xffff then (ret, pr_err (Diag.chip_id_fault chip_id) a.2)
      else (ret, a.2)
    let w1 := superio_exit s.2
    (s.1, w1)

def wdt_platform_probe (w : World) : Int × World :=
  let p := wdt_probe w
  if p.1 ≠ 0 then (p.1, p.2)
  else
    let r := superio_enter p.2
    if r.1 ≠ 0 then (r.1, r.2)
    else
      let w1 := wdt_select r.2
      -- deactivate WDT
      let a := superio_inb REG_WDT_STATUS w1
      let reg := u8 (a.1 &&& lnot (BIT 0))
      let w2 := superio_outb reg REG_WDT_STATUS a.2
      -- set the timeout counter mode to seconds
      let b := superio_inb REG_WDT_CNTR_MODE w2
      let reg := u8 (b.1 &&& (lnot (BIT 3) &&& lnot (BIT 4)))
      let w3 := superio_outb reg REG_WDT_CNTR_MODE b.2
      -- clear the Time-out event status bit
      let c := superio_inb REG_WDT_CTRL_STATUS w3
      let reg := u8 (c.1 &&& lnot (BIT 4))
      let w4 := superio_outb reg REG_WDT_CTRL_STATUS c.2
      -- set the timeout counter to max
      let w5 := superio_outb 0xFF REG_WDT_CNTR_VALUE w4
      -- (re)activate WDT
      let d := superio_inb REG_WDT_STATUS w5
      let reg := u8 (d.1 ||| BIT 0)
      let w6 := superio_outb reg REG_WDT_STATUS d.2
      -- set the timeout counter to 32s
      let w7 := superio_outb 0x20 REG_WDT_CNTR_VALUE w6
      let w8 := pr_debug_reads
        [REG_WDT_STATUS, REG_WDT_CTRL_STATUS, REG_WDT_CNTR_MODE, REG_WDT_CNTR_VALUE] w7
      let w9 := superio_exit w8
      let q := watchdog_register_device w9
      if q.1 ≠ 0 then (q.1, pr_err (Diag.cannot_register q.1) q.2)
      else (0, q.2)

/-! ## Auxiliary notions used to state the properties -/

/-- The 16-bit identification value held by the global registers 0x20 (high
byte) and 0x21 (low byte). -/
def chip_id (w : World) : Nat :=
  w.chip.reg 0 REG_CHIP_ID * 256 + w.chip.reg 0 (REG_CHIP_ID + 1)

/-- The hardware counting down: the counter register 0xF1 of the watchdog
logical device is lowered by `d` seconds and stops at 0. -/
def Chip.countdown (c : Chip) (d : Nat) : Chip :=
  let left := u8 (c.bank LDN_WDT REG_WDT_CNTR_VALUE) - d
  { c with bank := Function.update c.bank LDN_WDT (Function.update (c.bank LDN_WDT) REG_WDT_CNTR_VALUE left) }

/-- The world after the hardware has counted down by `d` seconds. -/
def countdown (d : Nat) (w : World) : World :=
  { w with chip := w.chip.countdown d }

/-- Where a port trace stands with respect to sessions: outside any session,
region acquired and no key byte yet, one key byte written, inside the session,
lock byte written and region not yet released. -/
inductive Phase where
  | idle
  | acquired
  | halfkey
  | inside
  | closing
deriving DecidableEq, Repr

/-- One event of a well-bracketed trace, or `none` when the event is not
allowed in the phase. -/
def Phase.step (p : Phase) (e : Event) : Option Phase :=
  match p, e with
  | Phase.idle, Event.request ok => some (if ok then Phase.acquired else Phase.idle)
  | Phase.acquired, Event.outb v port =>
      if v = 0x87 ∧ port = REG_EN then some Phase.halfkey else none
  | Phase.halfkey, Event.outb v port =>
      if v = 0x87 ∧ port = REG_EN then some Phase.inside else none
  | Phase.inside, Event.outb v port =>
      if port = REG_IDX then (if v = 0xAA then some Phase.closing else some Phase.inside)
      else if port = REG_VAL then some Phase.inside else none
  | Phase.inside, Event.inb port _ =>
      if port = REG_IDX ∨ port = REG_VAL then some Phase.inside else none
  | Phase.closing, Event.release => some Phase.idle
  | _, _ => none

/-- Runs a trace through `Phase.step`. -/
def Phase.run : Phase → List Event → Option Phase
  | p, [] => some p
  | p, e :: es =>
    match p.step e with
    | none => none
    | some q => Phase.run q es

/-- A trace is a concatenation of complete sessions (and refused requests). -/
def wellBracketed (tr : List Event) : Prop := Phase.run Phase.idle tr = some Phase.idle

instance (tr : List Event) : Decidable (wellBracketed tr) := by
  unfold wellBracketed
  infer_instance

/-- Number of writes to the data port in a trace. -/
def dataWrites (tr : List Event) : Nat :=
  (tr.filter (fun e => match e with
    | Event.outb _ port => port = REG_VAL
    | _ => false)).length

/-- A chip in normal mode whose identification registers hold `hi`, `lo` and
whose other registers hold `fill`. -/
def chipWith (hi lo fill : Nat) : Chip :=
  { mode := Mode.normal, idx := 0,
    glob := fun i => if i = 0x20 then hi else if i = 0x21 then lo else fill,
    bank := fun _ _ => fill, wlog := [] }

/-- A world with the region free, an empty trace and the given chip. -/
def worldWith (c : Chip) (debug : Bool) : World :=
  { held := false, chip := c, trace := [], debug := debug, errs := [],
    register_ret := 0, registered := false }

/-- A revision B chip, region free. -/
def w0 : World := worldWith (chipWith 0xC4 0x52 0x5A) false

/-- The same with the region reserved by another owner. -/
def wBusy : World := { w0 with held := true }

/-- The index latch after the two key bytes, from the mode before them. -/
def enter_idx (m : Mode) (i : Nat) : Nat :=
  match m with
  | Mode.normal => i
  | _ => 0x87

/-- A chip that answers 0xFF on the identification registers, region free. -/
def wFFFF : World := worldWith (chipWith 0xFF 0xFF 0) false

/-- A chip identifying as 0x1234, region free. -/
def w1234 : World := worldWith (chipWith 0x12 0x34 0) false

/-- A revision C chip, region free. -/
def wRevC : World := worldWith (chipWith 0xC4 0x53 0) false

/-- The values written to the counter register 0xF1 of the watchdog device, in
the order of a write log. -/
def counterWrites (log : List RegWrite) : List Nat :=
  log.filterMap (fun x => match x with
    | RegWrite.dev l i v => if l = LDN_WDT ∧ i = REG_WDT_CNTR_VALUE then some v else none
    | _ => none)

/-- The world `w0` once `superio_enter` has opened a session. -/
def wOpen : World := (superio_enter w0).2

/-- An operation taking the world from `w` to `w'` only appended to the trace,
what it appended is a concatenation of complete sessions and refused requests,
and the region is held afterwards exactly if it was held before. -/
def Bracketed (w w' : World) : Prop :=
  w.trace <+: w'.trace ∧ wellBracketed (w'.trace.drop w.trace.length) ∧ w'.held = w.held

/-! ## Properties

### Rejected requests -/

/-- C1: with min_timeout = 1 and max_timeout = 255, a request `t < 1` or
`t > 255` makes `wdt_set_timeout` return -EINVAL; the port trace, the chip, the
region and the device (its stored timeout included) are left as they were: no
region request, no port read or write. -/
theorem wdt_set_timeout_out_of_range (wdev : watchdog_device) (t : Nat) (w : World)
    (hmin : wdev.min_timeout = 1) (hmax : wdev.max_timeout = 255)
    (ht : t < 1 ∨ t > 255) :
    (wdt_set_timeout wdev t w).1 = -EINVAL ∧
    (wdt_set_timeout wdev t w).2.1 = wdev ∧
    (wdt_set_timeout wdev t w).2.2.trace = w.trace ∧
    (wdt_set_timeout wdev t w).2.2.chip = w.chip ∧
    (wdt_set_timeout wdev t w).2.2.held = w.held := by
  have hc : t < wdev.min_timeout ∨ t > wdev.max_timeout := by
    rw [hmin, hmax]; exact ht
  simp [wdt_set_timeout, hc, pr_err]

/-- C1 at the device `wdd` for the requests 0 and 256. -/
theorem wdt_set_timeout_out_of_range_witness :
    ((wdt_set_timeout wdd 0 w0).1 = -EINVAL ∧ (wdt_set_timeout wdd 0 w0).2.2.trace = []) ∧
    ((wdt_set_timeout wdd 256 w0).1 = -EINVAL ∧ (wdt_set_timeout wdd 256 w0).2.1.timeout = 60) :=
  ⟨⟨(wdt_set_timeout_out_of_range wdd 0 w0 rfl rfl (by decide)).1,
    (wdt_set_timeout_out_of_range wdd 0 w0 rfl rfl (by decide)).2.2.1⟩,
   ⟨(wdt_set_timeout_out_of_range wdd 256 w0 rfl rfl (by decide)).1,
    congrArg watchdog_device.timeout
      (wdt_set_timeout_out_of_range wdd 256 w0 rfl rfl (by decide)).2.1⟩⟩

/-- A refused region request: `superio_enter` returns -EBUSY and only records
the refused request. -/
theorem superio_enter_busy (w : World) (h : w.held = true) :
    superio_enter w = (-EBUSY, { w with trace := w.trace ++ [Event.request false] }) := by
  simp [superio_enter, request_muxed_region, h]

/-- C4: when the region is already reserved, `superio_enter`, `wdt_probe`,
`wdt_start`, `wdt_stop` and `wdt_set_timeout` (timeout within the device's
bounds) return -EBUSY and `wdt_get_timeleft` returns 0; the only event recorded
is the refused request (no port is read or written, the key 0x87 is not
written), and the chip and the stored timeout are as before. -/
theorem busy_region_short_circuits (wdev : watchdog_device) (t : Nat) (w : World)
    (h : w.held = true) (ht : wdev.min_timeout ≤ t ∧ t ≤ wdev.max_timeout) :
    ((superio_enter w).1 = -EBUSY ∧
      (superio_enter w).2.trace = w.trace ++ [Event.request false] ∧
      (superio_enter w).2.chip = w.chip) ∧
    ((wdt_probe w).1 = -EBUSY ∧
      (wdt_probe w).2.trace = w.trace ++ [Event.request false] ∧
      (wdt_probe w).2.chip = w.chip) ∧
    ((wdt_start wdev w).1 = -EBUSY ∧
      (wdt_start wdev w).2.trace = w.trace ++ [Event.request false] ∧
      (wdt_start wdev w).2.chip = w.chip) ∧
    ((wdt_stop wdev w).1 = -EBUSY ∧
      (wdt_stop wdev w).2.trace = w.trace ++ [Event.request false] ∧
      (wdt_stop wdev w).2.chip = w.chip) ∧
    ((wdt_set_timeout wdev t w).1 = -EBUSY ∧
      (wdt_set_timeout wdev t w).2.1 = wdev ∧
      (wdt_set_timeout wdev t w).2.2.trace = w.trace ++ [Event.request false] ∧
      (wdt_set_timeout wdev t w).2.2.chip = w.chip) ∧
    ((wdt_get_timeleft wdev w).1 = 0 ∧
      (wdt_get_timeleft wdev w).2.trace = w.trace ++ [Event.request false] ∧
      (wdt_get_timeleft wdev w).2.chip = w.chip) := by
  have hc : ¬ (t < wdev.min_timeout ∨ t > wdev.max_timeout) := by omega
  have he := superio_enter_busy w h
  refine ⟨?_, ?_, ?_, ?_, ?_, ?_⟩
  · simp [he]
  · simp [wdt_probe, he]
  · simp [wdt_start, he]
  · simp [wdt_stop, he]
  · simp [wdt_set_timeout, hc, he]
  · simp [wdt_get_timeleft, he, pr_err]

/-- C4 on a reserved region, device `wdd`, timeout 30. -/
theorem busy_region_short_circuits_witness :
    wBusy.held = true ∧ (wdd.min_timeout ≤ 30 ∧ 30 ≤ wdd.max_timeout) ∧
    (wdt_start wdd wBusy).1 = -EBUSY ∧ (wdt_get_timeleft wdd wBusy).1 = 0 ∧
    (wdt_set_timeout wdd 30 wBusy).2.2.trace = wBusy.trace ++ [Event.request false] :=
  ⟨rfl, by decide,
   (busy_region_short_circuits wdd 30 wBusy rfl (by decide)).2.2.1.1,
   (busy_region_short_circuits wdd 30 wBusy rfl (by decide)).2.2.2.2.2.1,
   (busy_region_short_circuits wdd 30 wBusy rfl (by decide)).2.2.2.2.1.2.2.1⟩

/-! ### Bit-level facts -/

theorem testBit_lnot_BIT (n i : Nat) (hn : n < 64) :
    (lnot (BIT n)).testBit i = (decide (i < 64) && decide (i ≠ n)) := by
  have h1 : BIT n = 2 ^ n := by simp [BIT, Nat.shiftLeft_eq]
  have h2 : 2 ^ n < 2 ^ 64 := Nat.pow_lt_pow_right (by decide) hn
  have h3 : lnot (BIT n) = 2 ^ 64 - (2 ^ n + 1) := by
    rw [lnot, h1, Nat.mod_eq_of_lt h2]; omega
  rw [h3, Nat.testBit_two_pow_sub_succ h2, Nat.testBit_two_pow]
  by_cases h : n = i
  · subst h; simp
  · have h' : ¬ i = n := fun e => h e.symm
    simp [h, h']

theorem testBit_one (i : Nat) : Nat.testBit 1 i = decide (i = 0) := by
  have h := @Nat.testBit_two_pow 0 i
  rw [Nat.pow_zero] at h
  rw [h]
  by_cases h0 : i = 0
  · subst h0; rfl
  · rw [decide_eq_false h0, decide_eq_false (Ne.symm h0)]

theorem BIT_zero : BIT 0 = 1 := rfl

/-- Clearing bit `n` of a byte with `reg &= ~BIT(n)`. -/
theorem clear_bit_byte (x n i : Nat) (hn : n < 8) :
    ((x % 256 &&& lnot (BIT n)) % 256).testBit i = ((x % 256).testBit i && decide (i ≠ n)) := by
  have hn' : n < 64 := by omega
  simp only [show (256 : Nat) = 2 ^ 8 from rfl, Nat.testBit_mod_two_pow, Nat.testBit_and,
    testBit_lnot_BIT n i hn']
  by_cases h8 : i < 8
  · have : i < 64 := by omega
    simp [h8, this]
  · simp [h8]

/-- Clearing bits `m` and `n` of a byte with `reg &= ~BIT(m) & ~BIT(n)`. -/
theorem clear_bits_byte (x m n i : Nat) (hm : m < 8) (hn : n < 8) :
    ((x % 256 &&& (lnot (BIT m) &&& lnot (BIT n))) % 256).testBit i =
      ((x % 256).testBit i && (decide (i ≠ m) && decide (i ≠ n))) := by
  have hm' : m < 64 := by omega
  have hn' : n < 64 := by omega
  simp only [show (256 : Nat) = 2 ^ 8 from rfl, Nat.testBit_mod_two_pow, Nat.testBit_and,
    testBit_lnot_BIT m i hm', testBit_lnot_BIT n i hn']
  by_cases h8 : i < 8
  · have : i < 64 := by omega
    simp [h8, this]
  · simp [h8]

/-- Setting bit 0 of a byte with `reg |= 1`. -/
theorem set_bit0_byte (x i : Nat) :
    ((x % 256 ||| 1) % 256).testBit i = ((x % 256).testBit i || decide (i = 0)) := by
  simp only [show (256 : Nat) = 2 ^ 8 from rfl, Nat.testBit_mod_two_pow, Nat.testBit_or,
    testBit_one]
  by_cases h0 : i = 0
  · subst h0; simp
  · by_cases h8 : i < 8 <;> simp [h8, h0]

/-- The value `superio_inw` assembles from a high and a low byte. -/
theorem shift_or_bytes (hi lo : Nat) (hlo : lo < 256) : (hi <<< 8) ||| lo = hi * 256 + lo := by
  rw [Nat.shiftLeft_eq, Nat.mul_comm]
  exact (Nat.mul_add_lt_is_or (i := 8) hlo hi).symm

/-! ### One driver step on a world inside a session -/

theorem superio_enter_mk (m : Mode) (i : Nat) (g : Nat → Nat) (b : Nat → Nat → Nat)
    (l : List RegWrite) (tr : List Event) (dbg : Bool) (e : List Diag) (rr : Int) (rg : Bool) :
    superio_enter ⟨false, ⟨m, i, g, b, l⟩, tr, dbg, e, rr, rg⟩ =
      (0, ⟨true, ⟨Mode.ext, enter_idx m i, g, b, l⟩,
        tr ++ [Event.request true, Event.outb 0x87 0x2E, Event.outb 0x87 0x2E],
        dbg, e, rr, rg⟩) := by
  cases m <;> simp [superio_enter, request_muxed_region, outb, Chip.outb, u8, enter_idx]

theorem superio_outb_mk (val reg : Nat) (h : Bool) (i : Nat) (g : Nat → Nat)
    (b : Nat → Nat → Nat) (l : List RegWrite) (tr : List Event) (dbg : Bool) (e : List Diag)
    (rr : Int) (rg : Bool) (hr : reg % 256 ≠ 0xAA) :
    superio_outb val reg ⟨h, ⟨Mode.ext, i, g, b, l⟩, tr, dbg, e, rr, rg⟩ =
      ⟨h, Chip.wr ⟨Mode.ext, reg % 256, g, b, l⟩ (reg % 256) (val % 256),
        tr ++ [Event.outb (reg % 256) 0x2E, Event.outb (val % 256) 0x2F], dbg, e, rr, rg⟩ := by
  simp [superio_outb, outb, Chip.outb, u8, hr]

theorem wr_glob_mk (m : Mode) (i : Nat) (g : Nat → Nat) (b : Nat → Nat → Nat)
    (l : List RegWrite) (j v : Nat) (hj : j < 0x30) :
    Chip.wr ⟨m, i, g, b, l⟩ j v =
      ⟨m, i, Function.update g j v, b, l ++ [RegWrite.glob j v]⟩ := by
  simp [Chip.wr, hj]

theorem wr_dev_mk (m : Mode) (i : Nat) (g : Nat → Nat) (b : Nat → Nat → Nat)
    (l : List RegWrite) (j v : Nat) (hj : ¬ j < 0x30) :
    Chip.wr ⟨m, i, g, b, l⟩ j v =
      ⟨m, i, g, Function.update b (g 7 % 256) (Function.update (b (g 7 % 256)) j v),
        l ++ [RegWrite.dev (g 7 % 256) j v]⟩ := by
  simp [Chip.wr, hj, Chip.ldn, u8]

theorem superio_inb_mk (reg : Nat) (h : Bool) (i : Nat) (g : Nat → Nat) (b : Nat → Nat → Nat)
    (l : List RegWrite) (tr : List Event) (dbg : Bool) (e : List Diag) (rr : Int) (rg : Bool)
    (hr : reg % 256 ≠ 0xAA) :
    superio_inb reg ⟨h, ⟨Mode.ext, i, g, b, l⟩, tr, dbg, e, rr, rg⟩ =
      (Chip.reg ⟨Mode.ext, reg % 256, g, b, l⟩ (g 7 % 256) (reg % 256),
       ⟨h, ⟨Mode.ext, reg % 256, g, b, l⟩,
        tr ++ [Event.outb (reg % 256) 0x2E,
               Event.inb 0x2F (Chip.reg ⟨Mode.ext, reg % 256, g, b, l⟩ (g 7 % 256) (reg % 256))],
        dbg, e, rr, rg⟩) := by
  simp [superio_inb, outb, inb, Chip.outb, Chip.inb, Chip.rd, Chip.ldn, u8, hr]

theorem superio_exit_mk (h : Bool) (i : Nat) (g : Nat → Nat) (b : Nat → Nat → Nat)
    (l : List RegWrite) (tr : List Event) (dbg : Bool) (e : List Diag) (rr : Int) (rg : Bool) :
    superio_exit ⟨h, ⟨Mode.ext, i, g, b, l⟩, tr, dbg, e, rr, rg⟩ =
      ⟨false, ⟨Mode.normal, i, g, b, l⟩, tr ++ [Event.outb 0xAA 0x2E, Event.release],
        dbg, e, rr, rg⟩ := by
  simp [superio_exit, release_region, outb, Chip.outb, u8]

theorem ite_pr_err_mk (c : Prop) [Decidable c] (d : Diag) (h : Bool) (ch : Chip)
    (tr : List Event) (dbg : Bool) (e : List Diag) (rr : Int) (rg : Bool) :
    (if c then pr_err d ⟨h, ch, tr, dbg, e, rr, rg⟩ else ⟨h, ch, tr, dbg, e, rr, rg⟩) =
      ⟨h, ch, tr, dbg, if c then e ++ [d] else e, rr, rg⟩ := by
  split <;> simp [pr_err]

theorem ite_pr_err_mk2 (c : Prop) [Decidable c] (d : Diag) (h : Bool) (ch : Chip)
    (tr : List Event) (dbg : Bool) (e : List Diag) (rr : Int) (rg : Bool) :
    (if c then ⟨h, ch, tr, dbg, e, rr, rg⟩ else pr_err d ⟨h, ch, tr, dbg, e, rr, rg⟩) =
      ⟨h, ch, tr, dbg, if c then e else e ++ [d], rr, rg⟩ := by
  split <;> simp [pr_err]

/-! ### Stop, set timeout, start -/

/-- C5: with the region free, `wdt_stop` returns 0, its only register writes
are the device selection and 0 to the counter register 0xF1 of the watchdog
device, every register other than the selector and that counter (the status
register 0x30 with its armed bit among them) holds what it held before, and
`wdt_get_timeleft` called next returns 0. -/
theorem wdt_stop_zeroes_counter (wdev : watchdog_device) (w : World)
    (h : w.held = false) :
    (wdt_stop wdev w).1 = 0 ∧
    (wdt_stop wdev w).2.chip.wlog = w.chip.wlog ++
      [RegWrite.glob REG_LDN LDN_WDT, RegWrite.dev LDN_WDT REG_WDT_CNTR_VALUE 0] ∧
    (wdt_stop wdev w).2.chip.reg LDN_WDT REG_WDT_CNTR_VALUE = 0 ∧
    (wdt_stop wdev w).2.chip.reg LDN_WDT REG_WDT_STATUS = w.chip.reg LDN_WDT REG_WDT_STATUS ∧
    (∀ l i, i ≠ REG_LDN → i ≠ REG_WDT_CNTR_VALUE →
      (wdt_stop wdev w).2.chip.reg l i = w.chip.reg l i) ∧
    (wdt_stop wdev w).2.trace = w.trace ++
      [Event.request true, Event.outb 0x87 REG_EN, Event.outb 0x87 REG_EN,
       Event.outb REG_LDN REG_IDX, Event.outb LDN_WDT REG_VAL,
       Event.outb REG_WDT_CNTR_VALUE REG_IDX, Event.outb 0 REG_VAL,
       Event.outb 0xAA REG_EN, Event.release] ∧
    (wdt_stop wdev w).2.held = false ∧
    (wdt_get_timeleft wdev (wdt_stop wdev w).2).1 = 0 := by
  obtain ⟨held, ⟨mode, idx, glob, bank, wlog⟩, trace, debug, errs, rr, rg⟩ := w
  simp only at h
  subst h
  have hw : wdt_stop wdev ⟨false, ⟨mode, idx, glob, bank, wlog⟩, trace, debug, errs, rr, rg⟩ =
      (0, ⟨false, ⟨Mode.normal, 0xF1, Function.update glob 7 8,
        Function.update bank 8 (Function.update (bank 8) 0xF1 0),
        wlog ++ [RegWrite.glob 7 8, RegWrite.dev 8 0xF1 0]⟩,
        trace ++ [Event.request true, Event.outb 0x87 0x2E, Event.outb 0x87 0x2E,
          Event.outb 7 0x2E, Event.outb 8 0x2F, Event.outb 0xF1 0x2E, Event.outb 0 0x2F,
          Event.outb 0xAA 0x2E, Event.release], debug, errs, rr, rg⟩) := by
    simp [wdt_stop, superio_enter_mk, wdt_select, superio_select, superio_outb_mk,
      superio_exit_mk, wr_glob_mk, wr_dev_mk, REG_LDN, LDN_WDT, REG_WDT_CNTR_VALUE]
  rw [hw]
  refine ⟨rfl, rfl, ?_, ?_, ?_, rfl, rfl, ?_⟩
  · simp [Chip.reg, u8, LDN_WDT, REG_WDT_CNTR_VALUE]
  · simp [Chip.reg, u8, LDN_WDT, REG_WDT_STATUS]
  · intro l i h7 hF1
    by_cases hi : i < 48
    · simp [Chip.reg, hi, Function.update_noteq h7]
    · by_cases hl : l = 8
      · subst hl
        simp [Chip.reg, hi, Function.update_noteq hF1]
      · simp [Chip.reg, hi, Function.update_noteq hl]
  · cases debug <;>
      simp [wdt_get_timeleft, superio_enter_mk, wdt_select, superio_select, superio_outb_mk,
        superio_inb_mk, superio_exit_mk, wr_glob_mk, wr_dev_mk, pr_debug_reads, Chip.reg, u8,
        REG_LDN, LDN_WDT, REG_WDT_CNTR_VALUE, REG_WDT_CNTR_MODE, REG_WDT_CTRL_STATUS]

/-- C5 on a revision B chip whose registers all hold 0x5A. -/
theorem wdt_stop_zeroes_counter_witness :
    w0.held = false ∧ (wdt_stop wdd w0).1 = 0 ∧
    (wdt_stop wdd w0).2.chip.reg LDN_WDT REG_WDT_STATUS = 0x5A ∧
    (wdt_get_timeleft wdd (wdt_stop wdd w0).2).1 = 0 :=
  ⟨rfl, (wdt_stop_zeroes_counter wdd w0 rfl).1,
   (wdt_stop_zeroes_counter wdd w0 rfl).2.2.2.1.trans (by decide),
   (wdt_stop_zeroes_counter wdd w0 rfl).2.2.2.2.2.2.2⟩

/-- C2: for `1 ≤ t ≤ 255` (device bounds 1 and 255) and the region free,
`wdt_set_timeout` returns 0, stores `t` as the configured timeout, and its only
register writes are the device selection and `t` to the counter register 0xF1
of the watchdog device: the status register 0x30 is not written. The counter
then holds `t`; `wdt_get_timeleft` called next returns `t`, and after the
hardware has counted down by any `d` seconds it returns `t - d`, at most `t`. -/
theorem wdt_set_timeout_in_range (wdev : watchdog_device) (t d : Nat) (w : World)
    (hmin : wdev.min_timeout = 1) (hmax : wdev.max_timeout = 255)
    (h1 : 1 ≤ t) (h2 : t ≤ 255) (h : w.held = false) :
    (wdt_set_timeout wdev t w).1 = 0 ∧
    (wdt_set_timeout wdev t w).2.1.timeout = t ∧
    (wdt_set_timeout wdev t w).2.2.chip.wlog = w.chip.wlog ++
      [RegWrite.glob REG_LDN LDN_WDT, RegWrite.dev LDN_WDT REG_WDT_CNTR_VALUE t] ∧
    (wdt_set_timeout wdev t w).2.2.chip.reg LDN_WDT REG_WDT_CNTR_VALUE = t ∧
    (wdt_set_timeout wdev t w).2.2.chip.reg LDN_WDT REG_WDT_STATUS =
      w.chip.reg LDN_WDT REG_WDT_STATUS ∧
    (wdt_set_timeout wdev t w).2.2.trace = w.trace ++
      [Event.request true, Event.outb 0x87 REG_EN, Event.outb 0x87 REG_EN,
       Event.outb REG_LDN REG_IDX, Event.outb LDN_WDT REG_VAL,
       Event.outb REG_WDT_CNTR_VALUE REG_IDX, Event.outb t REG_VAL,
       Event.outb 0xAA REG_EN, Event.release] ∧
    (wdt_set_timeout wdev t w).2.2.held = false ∧
    (wdt_get_timeleft (wdt_set_timeout wdev t w).2.1 (wdt_set_timeout wdev t w).2.2).1 = t ∧
    (wdt_get_timeleft (wdt_set_timeout wdev t w).2.1
      (countdown d (wdt_set_timeout wdev t w).2.2)).1 = t - d ∧
    (wdt_get_timeleft (wdt_set_timeout wdev t w).2.1
      (countdown d (wdt_set_timeout wdev t w).2.2)).1 ≤ t := by
  obtain ⟨held, ⟨mode, idx, glob, bank, wlog⟩, trace, debug, errs, rr, rg⟩ := w
  simp only at h
  subst h
  have hc : ¬ (t < wdev.min_timeout ∨ t > wdev.max_timeout) := by omega
  have ht : t % 256 = t := Nat.mod_eq_of_lt (by omega)
  have hd : (t - d) % 256 = t - d := Nat.mod_eq_of_lt (by omega)
  have hw : wdt_set_timeout wdev t
        ⟨false, ⟨mode, idx, glob, bank, wlog⟩, trace, debug, errs, rr, rg⟩ =
      (0, { wdev with timeout := t }, ⟨false, ⟨Mode.normal, 0xF1, Function.update glob 7 8,
        Function.update bank 8 (Function.update (bank 8) 0xF1 t),
        wlog ++ [RegWrite.glob 7 8, RegWrite.dev 8 0xF1 t]⟩,
        trace ++ [Event.request true, Event.outb 0x87 0x2E, Event.outb 0x87 0x2E,
          Event.outb 7 0x2E, Event.outb 8 0x2F, Event.outb 0xF1 0x2E, Event.outb t 0x2F,
          Event.outb 0xAA 0x2E, Event.release], debug, errs, rr, rg⟩) := by
    simp [wdt_set_timeout, hc, superio_enter_mk, wdt_select, superio_select, superio_outb_mk,
      superio_exit_mk, wr_glob_mk, wr_dev_mk, REG_LDN, LDN_WDT, REG_WDT_CNTR_VALUE, ht]
  rw [hw]
  have hleft : ∀ k, k % 256 = k →
      (wdt_get_timeleft { wdev with timeout := t }
        ⟨false, ⟨Mode.normal, 0xF1, Function.update glob 7 8,
          Function.update bank 8 (Function.update (bank 8) 0xF1 k),
          wlog ++ [RegWrite.glob 7 8, RegWrite.dev 8 0xF1 t]⟩,
          trace ++ [Event.request true, Event.outb 0x87 0x2E, Event.outb 0x87 0x2E,
            Event.outb 7 0x2E, Event.outb 8 0x2F, Event.outb 0xF1 0x2E, Event.outb t 0x2F,
            Event.outb 0xAA 0x2E, Event.release], debug, errs, rr, rg⟩).1 = k := by
    intro k hk
    cases debug <;>
      simp [wdt_get_timeleft, superio_enter_mk, wdt_select, superio_select, superio_outb_mk,
        superio_inb_mk, superio_exit_mk, wr_glob_mk, wr_dev_mk, pr_debug_reads, Chip.reg, u8,
        REG_LDN, LDN_WDT, REG_WDT_CNTR_VALUE, REG_WDT_CNTR_MODE, REG_WDT_CTRL_STATUS, hk]
  have hcd : countdown d ⟨false, ⟨Mode.normal, 0xF1, Function.update glob 7 8,
          Function.update bank 8 (Function.update (bank 8) 0xF1 t),
          wlog ++ [RegWrite.glob 7 8, RegWrite.dev 8 0xF1 t]⟩,
          trace ++ [Event.request true, Event.outb 0x87 0x2E, Event.outb 0x87 0x2E,
            Event.outb 7 0x2E, Event.outb 8 0x2F, Event.outb 0xF1 0x2E, Event.outb t 0x2F,
            Event.outb 0xAA 0x2E, Event.release], debug, errs, rr, rg⟩ =
        ⟨false, ⟨Mode.normal, 0xF1, Function.update glob 7 8,
          Function.update bank 8 (Function.update (bank 8) 0xF1 (t - d)),
          wlog ++ [RegWrite.glob 7 8, RegWrite.dev 8 0xF1 t]⟩,
          trace ++ [Event.request true, Event.outb 0x87 0x2E, Event.outb 0x87 0x2E,
            Event.outb 7 0x2E, Event.outb 8 0x2F, Event.outb 0xF1 0x2E, Event.outb t 0x2F,
            Event.outb 0xAA 0x2E, Event.release], debug, errs, rr, rg⟩ := by
    simp [countdown, Chip.countdown, u8, LDN_WDT, REG_WDT_CNTR_VALUE, ht]
  refine ⟨rfl, rfl, rfl, ?_, ?_, rfl, rfl, hleft t ht, ?_, ?_⟩
  · simp [Chip.reg, u8, LDN_WDT, REG_WDT_CNTR_VALUE, ht]
  · simp [Chip.reg, u8, LDN_WDT, REG_WDT_STATUS]
  · rw [hcd]; exact hleft (t - d) hd
  · rw [hcd, hleft (t - d) hd]; exact Nat.sub_le t d

/-- C2 at the device `wdd`, timeout 30, after 12 seconds of countdown. -/
theorem wdt_set_timeout_in_range_witness :
    (wdd.min_timeout = 1 ∧ wdd.max_timeout = 255 ∧ 1 ≤ 30 ∧ 30 ≤ 255 ∧ w0.held = false) ∧
    (wdt_set_timeout wdd 30 w0).1 = 0 ∧
    (wdt_get_timeleft (wdt_set_timeout wdd 30 w0).2.1 (wdt_set_timeout wdd 30 w0).2.2).1 = 30 ∧
    (wdt_get_timeleft (wdt_set_timeout wdd 30 w0).2.1
      (countdown 12 (wdt_set_timeout wdd 30 w0).2.2)).1 = 30 - 12 :=
  ⟨by decide,
   (wdt_set_timeout_in_range wdd 30 12 w0 rfl rfl (by decide) (by decide) rfl).1,
   (wdt_set_timeout_in_range wdd 30 12 w0 rfl rfl (by decide) (by decide) rfl).2.2.2.2.2.2.2.1,
   (wdt_set_timeout_in_range wdd 30 12 w0 rfl rfl (by decide) (by decide) rfl).2.2.2.2.2.2.2.2.1⟩

/-- C6: with the region free and a configured timeout `t ≤ 255`, `wdt_start`
returns 0 whatever the counter mode register 0xF0 holds (a set reserved bit 0
only adds a diagnostic); afterwards the counter register 0xF1 of the watchdog
device holds `t`, the control and status register 0xF2 has bit 4 clear and its
other bits as before, and the status register 0x30 has bit 0 set and its other
bits as before. The register writes are, in order: device selection, 0xF2,
0xF1, 0x30. -/
theorem wdt_start_arms (wdev : watchdog_device) (w : World)
    (h : w.held = false) (ht : wdev.timeout ≤ WATCHDOG_TIMEOUT_MAX) :
    (wdt_start wdev w).1 = 0 ∧
    (wdt_start wdev w).2.chip.reg LDN_WDT REG_WDT_CNTR_VALUE = wdev.timeout ∧
    (∀ i, ((wdt_start wdev w).2.chip.reg LDN_WDT REG_WDT_CTRL_STATUS).testBit i =
      ((w.chip.reg LDN_WDT REG_WDT_CTRL_STATUS).testBit i && decide (i ≠ 4))) ∧
    (∀ i, ((wdt_start wdev w).2.chip.reg LDN_WDT REG_WDT_STATUS).testBit i =
      ((w.chip.reg LDN_WDT REG_WDT_STATUS).testBit i || decide (i = 0))) ∧
    (wdt_start wdev w).2.chip.reg LDN_WDT REG_WDT_CNTR_MODE =
      w.chip.reg LDN_WDT REG_WDT_CNTR_MODE ∧
    (wdt_start wdev w).2.chip.wlog = w.chip.wlog ++
      [RegWrite.glob REG_LDN LDN_WDT,
       RegWrite.dev LDN_WDT REG_WDT_CTRL_STATUS
         (u8 (w.chip.reg LDN_WDT REG_WDT_CTRL_STATUS &&& lnot (BIT 4))),
       RegWrite.dev LDN_WDT REG_WDT_CNTR_VALUE wdev.timeout,
       RegWrite.dev LDN_WDT REG_WDT_STATUS (u8 (w.chip.reg LDN_WDT REG_WDT_STATUS ||| 1))] ∧
    (wdt_start wdev w).2.errs =
      (if (w.chip.reg LDN_WDT REG_WDT_CNTR_MODE).testBit 0 then w.errs ++ [Diag.reserved_bit]
       else w.errs) ∧
    (wdt_start wdev w).2.held = false := by
  obtain ⟨held, ⟨mode, idx, glob, bank, wlog⟩, trace, debug, errs, rr, rg⟩ := w
  simp only at h
  subst h
  have ht' : wdev.timeout % 256 = wdev.timeout := by
    have h255 : wdev.timeout ≤ 255 := ht
    exact Nat.mod_eq_of_lt (by omega)
  refine ⟨?_, ?_, ?_, ?_, ?_, ?_, ?_, ?_⟩
  · cases debug <;>
      simp [wdt_start, superio_enter_mk, wdt_select, superio_select, superio_outb_mk,
        superio_inb_mk, superio_exit_mk, wr_glob_mk, wr_dev_mk, pr_debug_reads, ite_pr_err_mk,
        ite_pr_err_mk2, Chip.reg, u8, REG_LDN, LDN_WDT, REG_WDT_CNTR_VALUE, REG_WDT_STATUS,
        REG_WDT_CNTR_MODE, REG_WDT_CTRL_STATUS, ht']
  · cases debug <;>
      simp [wdt_start, superio_enter_mk, wdt_select, superio_select, superio_outb_mk,
        superio_inb_mk, superio_exit_mk, wr_glob_mk, wr_dev_mk, pr_debug_reads, ite_pr_err_mk,
        ite_pr_err_mk2, Chip.reg, u8, REG_LDN, LDN_WDT, REG_WDT_CNTR_VALUE, REG_WDT_STATUS,
        REG_WDT_CNTR_MODE, REG_WDT_CTRL_STATUS, ht']
  · intro i
    have hb := clear_bit_byte (bank 8 0xF2) 4 i (by decide)
    cases debug <;>
      simpa [wdt_start, superio_enter_mk, wdt_select, superio_select, superio_outb_mk,
        superio_inb_mk, superio_exit_mk, wr_glob_mk, wr_dev_mk, pr_debug_reads, ite_pr_err_mk,
        ite_pr_err_mk2, Chip.reg, u8, REG_LDN, LDN_WDT, REG_WDT_CNTR_VALUE, REG_WDT_STATUS,
        REG_WDT_CNTR_MODE, REG_WDT_CTRL_STATUS, ht'] using hb
  · intro i
    have hb := set_bit0_byte (bank 8 0x30) i
    cases debug <;>
      simpa [wdt_start, superio_enter_mk, wdt_select, superio_select, superio_outb_mk,
        superio_inb_mk, superio_exit_mk, wr_glob_mk, wr_dev_mk, pr_debug_reads, ite_pr_err_mk,
        ite_pr_err_mk2, Chip.reg, u8, REG_LDN, LDN_WDT, REG_WDT_CNTR_VALUE, REG_WDT_STATUS,
        REG_WDT_CNTR_MODE, REG_WDT_CTRL_STATUS, ht'] using hb
  · cases debug <;>
      simp [wdt_start, superio_enter_mk, wdt_select, superio_select, superio_outb_mk,
        superio_inb_mk, superio_exit_mk, wr_glob_mk, wr_dev_mk, pr_debug_reads, ite_pr_err_mk,
        ite_pr_err_mk2, Chip.reg, u8, REG_LDN, LDN_WDT, REG_WDT_CNTR_VALUE, REG_WDT_STATUS,
        REG_WDT_CNTR_MODE, REG_WDT_CTRL_STATUS, ht']
  · cases debug <;>
      simp [wdt_start, superio_enter_mk, wdt_select, superio_select, superio_outb_mk,
        superio_inb_mk, superio_exit_mk, wr_glob_mk, wr_dev_mk, pr_debug_reads, ite_pr_err_mk,
        ite_pr_err_mk2, Chip.reg, u8, REG_LDN, LDN_WDT, REG_WDT_CNTR_VALUE, REG_WDT_STATUS,
        REG_WDT_CNTR_MODE, REG_WDT_CTRL_STATUS, ht']
  · have hbit : ∀ x : Nat, (x &&& BIT 0 = 0) = ¬ (x % 2 = 1) := by
      intro x
      rw [BIT_zero, Nat.and_one_is_mod]
      exact propext (by omega)
    cases debug <;>
      simp [wdt_start, superio_enter_mk, wdt_select, superio_select, superio_outb_mk,
        superio_inb_mk, superio_exit_mk, wr_glob_mk, wr_dev_mk, pr_debug_reads, ite_pr_err_mk,
        ite_pr_err_mk2, Chip.reg, u8, REG_LDN, LDN_WDT, REG_WDT_CNTR_VALUE, REG_WDT_STATUS,
        REG_WDT_CNTR_MODE, REG_WDT_CTRL_STATUS, ht', hbit]
  · cases debug <;>
      simp [wdt_start, superio_enter_mk, wdt_select, superio_select, superio_outb_mk,
        superio_inb_mk, superio_exit_mk, wr_glob_mk, wr_dev_mk, pr_debug_reads, ite_pr_err_mk,
        ite_pr_err_mk2, Chip.reg, u8, REG_LDN, LDN_WDT, REG_WDT_CNTR_VALUE, REG_WDT_STATUS,
        REG_WDT_CNTR_MODE, REG_WDT_CTRL_STATUS, ht']

/-- C6 after initialization with the default configuration: the counter holds
60. -/
theorem wdt_start_arms_witness :
    ((wdt_platform_probe w0).2.held = false ∧ wdd.timeout ≤ WATCHDOG_TIMEOUT_MAX) ∧
    (wdt_start wdd (wdt_platform_probe w0).2).1 = 0 ∧
    (wdt_start wdd (wdt_platform_probe w0).2).2.chip.reg LDN_WDT REG_WDT_CNTR_VALUE = 60 :=
  ⟨⟨by decide, by decide⟩,
   (wdt_start_arms wdd (wdt_platform_probe w0).2 (by decide) (by decide)).1,
   (wdt_start_arms wdd (wdt_platform_probe w0).2 (by decide) (by decide)).2.1⟩

/-! ### Identification -/

theorem superio_inw_chip_id_mk (h : Bool) (i : Nat) (g : Nat → Nat) (b : Nat → Nat → Nat)
    (l : List RegWrite) (tr : List Event) (dbg : Bool) (e : List Diag) (rr : Int) (rg : Bool) :
    superio_inw REG_CHIP_ID ⟨h, ⟨Mode.ext, i, g, b, l⟩, tr, dbg, e, rr, rg⟩ =
      (g 0x20 % 256 * 256 + g 0x21 % 256,
       ⟨h, ⟨Mode.ext, 0x21, g, b, l⟩,
        tr ++ [Event.outb 0x20 0x2E, Event.inb 0x2F (g 0x20 % 256),
               Event.outb 0x21 0x2E, Event.inb 0x2F (g 0x21 % 256)],
        dbg, e, rr, rg⟩) := by
  have hlo : g 0x21 % 256 < 256 := Nat.mod_lt _ (by decide)
  simp [superio_inw, outb, inb, Chip.outb, Chip.inb, Chip.rd, Chip.reg, Chip.ldn, u8,
    REG_CHIP_ID, shift_or_bytes _ _ hlo]

theorem wdt_probe_mk (m : Mode) (i : Nat) (g : Nat → Nat) (b : Nat → Nat → Nat)
    (l : List RegWrite) (tr : List Event) (dbg : Bool) (e : List Diag) (rr : Int) (rg : Bool) :
    wdt_probe ⟨false, ⟨m, i, g, b, l⟩, tr, dbg, e, rr, rg⟩ =
      (if g 0x20 % 256 * 256 + g 0x21 % 256 = 0xC452 ∨
          g 0x20 % 256 * 256 + g 0x21 % 256 = 0xC453 then 0 else -ENODEV,
       ⟨false, ⟨Mode.normal, 0x21, g, b, l⟩,
        tr ++ [Event.request true, Event.outb 0x87 0x2E, Event.outb 0x87 0x2E,
               Event.outb 0x20 0x2E, Event.inb 0x2F (g 0x20 % 256),
               Event.outb 0x21 0x2E, Event.inb 0x2F (g 0x21 % 256),
               Event.outb 0xAA 0x2E, Event.release],
        dbg,
        if g 0x20 % 256 * 256 + g 0x21 % 256 = 0xffff then
          e ++ [Diag.chip_id_fault (g 0x20 % 256 * 256 + g 0x21 % 256)]
        else e,
        rr, rg⟩) := by
  simp only [wdt_probe, superio_enter_mk, superio_inw_chip_id_mk]
  by_cases hbc : g 0x20 % 256 * 256 + g 0x21 % 256 = 0xC452 ∨
      g 0x20 % 256 * 256 + g 0x21 % 256 = 0xC453
  · have hf : ¬ g 0x20 % 256 * 256 + g 0x21 % 256 = 0xffff := by omega
    simp [hbc, hf, superio_exit_mk]
  · by_cases hf : g 0x20 % 256 * 256 + g 0x21 % 256 = 0xffff
    · simp [hbc, hf, superio_exit_mk, pr_err]
    · simp [hbc, hf, superio_exit_mk]

theorem chip_id_mk (h : Bool) (m : Mode) (i : Nat) (g : Nat → Nat) (b : Nat → Nat → Nat)
    (l : List RegWrite) (tr : List Event) (dbg : Bool) (e : List Diag) (rr : Int) (rg : Bool) :
    chip_id ⟨h, ⟨m, i, g, b, l⟩, tr, dbg, e, rr, rg⟩ = g 0x20 % 256 * 256 + g 0x21 % 256 := by
  simp [chip_id, Chip.reg, u8, REG_CHIP_ID]

/-- C3 as stated fails: for the identification value 0xFFFF `wdt_probe` returns
the same -ENODEV as for the unrecognized value 0x1234, and for the two
recognized revisions it returns the same 0. -/
theorem wdt_probe_fault_not_distinct :
    chip_id wFFFF = 0xFFFF ∧ chip_id w1234 = 0x1234 ∧
    (wdt_probe wFFFF).1 = -ENODEV ∧ (wdt_probe w1234).1 = -ENODEV ∧
    ¬ ((wdt_probe wFFFF).1 ≠ (wdt_probe w1234).1) ∧
    chip_id w0 = 0xC452 ∧ chip_id wRevC = 0xC453 ∧
    (wdt_probe w0).1 = (wdt_probe wRevC).1 := by
  decide

/-- C3 amended: with the region free, `wdt_probe` returns 0 when the
identification value is 0xC452 or 0xC453 and -ENODEV for every other value,
0xFFFF included; for 0xFFFF alone it also emits the hardware-fault diagnostic.
It writes no register and leaves the region free. -/
theorem wdt_probe_classifies (w : World) (h : w.held = false) :
    (wdt_probe w).1 =
      (if chip_id w = NCT5104D_ID_REV_B ∨ chip_id w = NCT5104D_ID_REV_C then 0 else -ENODEV) ∧
    (wdt_probe w).2.errs =
      (if chip_id w = 0xFFFF then w.errs ++ [Diag.chip_id_fault 0xFFFF] else w.errs) ∧
    (wdt_probe w).2.chip.wlog = w.chip.wlog ∧
    (∀ l i, (wdt_probe w).2.chip.reg l i = w.chip.reg l i) ∧
    (wdt_probe w).2.held = false := by
  obtain ⟨held, ⟨mode, idx, glob, bank, wlog⟩, trace, debug, errs, rr, rg⟩ := w
  simp only at h
  subst h
  rw [wdt_probe_mk, chip_id_mk]
  refine ⟨rfl, ?_, rfl, fun l i => rfl, rfl⟩
  by_cases hf : glob 0x20 % 256 * 256 + glob 0x21 % 256 = 0xffff
  · simp [hf]
  · simp [hf]

/-- C3 amended, on the four identification values 0xC452, 0xC453, 0xFFFF and
0x1234. -/
theorem wdt_probe_classifies_witness :
    (w0.held = false ∧ (wdt_probe w0).1 = 0) ∧
    (wRevC.held = false ∧ (wdt_probe wRevC).1 = 0) ∧
    (wFFFF.held = false ∧ (wdt_probe wFFFF).1 = -ENODEV ∧
      (wdt_probe wFFFF).2.errs = [Diag.chip_id_fault 0xFFFF]) ∧
    (w1234.held = false ∧ (wdt_probe w1234).1 = -ENODEV ∧ (wdt_probe w1234).2.errs = []) :=
  ⟨⟨rfl, (wdt_probe_classifies w0 rfl).1.trans (by decide)⟩,
   ⟨rfl, (wdt_probe_classifies wRevC rfl).1.trans (by decide)⟩,
   ⟨rfl, (wdt_probe_classifies wFFFF rfl).1.trans (by decide),
    (wdt_probe_classifies wFFFF rfl).2.1.trans (by decide)⟩,
   ⟨rfl, (wdt_probe_classifies w1234 rfl).1.trans (by decide),
    (wdt_probe_classifies w1234 rfl).2.1.trans (by decide)⟩⟩

/-- C10: with the region free and an identification value other than 0xC452
and 0xC453, `wdt_platform_probe` does exactly what `wdt_probe` does and returns
its -ENODEV: the trace is the single identification session, with no write to
the data port; no register is written (the watchdog device is not selected,
0x30, 0xF0, 0xF1, 0xF2 keep their contents) and the watchdog device is not
registered. -/
theorem wdt_platform_probe_unrecognized (w : World) (h : w.held = false)
    (hB : chip_id w ≠ NCT5104D_ID_REV_B) (hC : chip_id w ≠ NCT5104D_ID_REV_C) :
    (wdt_platform_probe w).1 = -ENODEV ∧
    (wdt_platform_probe w).1 = (wdt_probe w).1 ∧
    (wdt_platform_probe w).2.trace = (wdt_probe w).2.trace ∧
    (wdt_platform_probe w).2.trace = w.trace ++
      [Event.request true, Event.outb 0x87 REG_EN, Event.outb 0x87 REG_EN,
       Event.outb REG_CHIP_ID REG_IDX, Event.inb REG_VAL (w.chip.reg 0 REG_CHIP_ID),
       Event.outb (REG_CHIP_ID + 1) REG_IDX, Event.inb REG_VAL (w.chip.reg 0 (REG_CHIP_ID + 1)),
       Event.outb 0xAA REG_EN, Event.release] ∧
    dataWrites ((wdt_platform_probe w).2.trace.drop w.trace.length) = 0 ∧
    (wdt_platform_probe w).2.chip.wlog = w.chip.wlog ∧
    (∀ l i, (wdt_platform_probe w).2.chip.reg l i = w.chip.reg l i) ∧
    (wdt_platform_probe w).2.chip.ldn = w.chip.ldn ∧
    (wdt_platform_probe w).2.registered = w.registered ∧
    (wdt_platform_probe w).2.held = false := by
  obtain ⟨held, ⟨mode, idx, glob, bank, wlog⟩, trace, debug, errs, rr, rg⟩ := w
  simp only at h
  subst h
  rw [chip_id_mk] at hB hC
  have hbc : ¬ (glob 0x20 % 256 * 256 + glob 0x21 % 256 = 0xC452 ∨
      glob 0x20 % 256 * 256 + glob 0x21 % 256 = 0xC453) := by
    intro hh
    cases hh with
    | inl hh => exact hB hh
    | inr hh => exact hC hh
  have hp : wdt_platform_probe ⟨false, ⟨mode, idx, glob, bank, wlog⟩, trace, debug, errs, rr, rg⟩
      = wdt_probe ⟨false, ⟨mode, idx, glob, bank, wlog⟩, trace, debug, errs, rr, rg⟩ := by
    simp [wdt_platform_probe, wdt_probe_mk, hbc]
  rw [hp, wdt_probe_mk]
  refine ⟨?_, rfl, rfl, ?_, ?_, rfl, fun l i => rfl, rfl, rfl, rfl⟩
  · simp [hbc]
  · simp [Chip.reg, u8, REG_CHIP_ID]
  · simp [dataWrites, REG_VAL]

/-- C10 on a chip answering 0xFFFF. -/
theorem wdt_platform_probe_unrecognized_witness :
    (wFFFF.held = false ∧ chip_id wFFFF ≠ NCT5104D_ID_REV_B ∧
      chip_id wFFFF ≠ NCT5104D_ID_REV_C) ∧
    (wdt_platform_probe wFFFF).1 = -ENODEV ∧
    (wdt_platform_probe wFFFF).2.registered = false :=
  ⟨by decide,
   (wdt_platform_probe_unrecognized wFFFF rfl (by decide) (by decide)).1,
   (wdt_platform_probe_unrecognized wFFFF rfl (by decide) (by decide)).2.2.2.2.2.2.2.2.1⟩

/-! ### Initialization -/

theorem wr_dev_sel_mk (m : Mode) (i : Nat) (g : Nat → Nat) (b : Nat → Nat → Nat)
    (l : List RegWrite) (j v : Nat) (hj : ¬ j < 0x30) :
    Chip.wr ⟨m, i, Function.update g 7 8, b, l⟩ j v =
      ⟨m, i, Function.update g 7 8, Function.update b 8 (Function.update (b 8) j v),
        l ++ [RegWrite.dev 8 j v]⟩ := by
  simp [Chip.wr, hj, Chip.ldn, u8]

theorem superio_inb_sel_mk (reg : Nat) (h : Bool) (i : Nat) (g : Nat → Nat)
    (b : Nat → Nat → Nat) (l : List RegWrite) (tr : List Event) (dbg : Bool) (e : List Diag)
    (rr : Int) (rg : Bool) (hr : reg % 256 ≠ 0xAA) (hj : ¬ reg % 256 < 0x30) :
    superio_inb reg ⟨h, ⟨Mode.ext, i, Function.update g 7 8, b, l⟩, tr, dbg, e, rr, rg⟩ =
      (b 8 (reg % 256) % 256,
       ⟨h, ⟨Mode.ext, reg % 256, Function.update g 7 8, b, l⟩,
        tr ++ [Event.outb (reg % 256) 0x2E, Event.inb 0x2F (b 8 (reg % 256) % 256)],
        dbg, e, rr, rg⟩) := by
  simp [superio_inb, outb, inb, Chip.outb, Chip.inb, Chip.rd, Chip.reg, Chip.ldn, u8, hr, hj]

/-- The chip, the return value and the registration after `wdt_platform_probe`
on a recognized chip with the region free. -/
theorem wdt_platform_probe_mk (m : Mode) (i : Nat) (g : Nat → Nat) (b : Nat → Nat → Nat)
    (l : List RegWrite) (tr : List Event) (dbg : Bool) (e : List Diag) (rr : Int) (rg : Bool)
    (hid : g 0x20 % 256 * 256 + g 0x21 % 256 = 0xC452 ∨
      g 0x20 % 256 * 256 + g 0x21 % 256 = 0xC453) :
    (wdt_platform_probe ⟨false, ⟨m, i, g, b, l⟩, tr, dbg, e, rr, rg⟩).1 = rr ∧
    (wdt_platform_probe ⟨false, ⟨m, i, g, b, l⟩, tr, dbg, e, rr, rg⟩).2.held = false ∧
    (wdt_platform_probe ⟨false, ⟨m, i, g, b, l⟩, tr, dbg, e, rr, rg⟩).2.registered =
      (rg || decide (rr = 0)) ∧
    (wdt_platform_probe ⟨false, ⟨m, i, g, b, l⟩, tr, dbg, e, rr, rg⟩).2.chip =
      ⟨Mode.normal, 0xF1, Function.update g 7 8,
       Function.update b 8
        (Function.update (Function.update (Function.update (Function.update (Function.update
          (Function.update (b 8) 0x30 ((b 8 0x30 % 256 &&& lnot (BIT 0)) % 256))
          0xF0 ((b 8 0xF0 % 256 &&& (lnot (BIT 3) &&& lnot (BIT 4))) % 256))
          0xF2 ((b 8 0xF2 % 256 &&& lnot (BIT 4)) % 256))
          0xF1 0xFF)
          0x30 (((b 8 0x30 % 256 &&& lnot (BIT 0)) % 256 ||| BIT 0) % 256))
          0xF1 0x20),
       l ++ [RegWrite.glob 7 8,
         RegWrite.dev 8 0x30 ((b 8 0x30 % 256 &&& lnot (BIT 0)) % 256),
         RegWrite.dev 8 0xF0 ((b 8 0xF0 % 256 &&& (lnot (BIT 3) &&& lnot (BIT 4))) % 256),
         RegWrite.dev 8 0xF2 ((b 8 0xF2 % 256 &&& lnot (BIT 4)) % 256),
         RegWrite.dev 8 0xF1 0xFF,
         RegWrite.dev 8 0x30 (((b 8 0x30 % 256 &&& lnot (BIT 0)) % 256 ||| BIT 0) % 256),
         RegWrite.dev 8 0xF1 0x20]⟩ := by
  cases dbg <;> by_cases hr : rr = 0 <;>
    simp [wdt_platform_probe, wdt_probe_mk, hid, superio_enter_mk, wdt_select, superio_select,
      superio_outb_mk, superio_inb_sel_mk, superio_exit_mk, wr_glob_mk, wr_dev_sel_mk,
      pr_debug_reads, watchdog_register_device, pr_err, hr, u8, REG_LDN, LDN_WDT,
      REG_WDT_CNTR_VALUE, REG_WDT_STATUS, REG_WDT_CNTR_MODE, REG_WDT_CTRL_STATUS]

/-- C7: with the region free and the identification value 0xC452 or 0xC453,
`wdt_platform_probe` makes these register writes in this order: device
selection, status 0x30 with bit 0 cleared, counter mode 0xF0 with bits 3 and 4
cleared, control and status 0xF2 with bit 4 cleared, counter 0xF1 := 0xFF,
status 0x30 with bit 0 set, counter 0xF1 := 0x20. So the counter register is
written exactly twice, 0xFF then 32, after the write clearing the armed bit and
around the write setting it. On return bit 0 of 0x30 is set, bits 3 and 4 of
0xF0 and bit 4 of 0xF2 are clear, and the counter holds 32. -/
theorem wdt_platform_probe_initializes (w : World) (h : w.held = false)
    (hid : chip_id w = NCT5104D_ID_REV_B ∨ chip_id w = NCT5104D_ID_REV_C) :
    (wdt_platform_probe w).2.chip.wlog = w.chip.wlog ++
      [RegWrite.glob REG_LDN LDN_WDT,
       RegWrite.dev LDN_WDT REG_WDT_STATUS
         (u8 (w.chip.reg LDN_WDT REG_WDT_STATUS &&& lnot (BIT 0))),
       RegWrite.dev LDN_WDT REG_WDT_CNTR_MODE
         (u8 (w.chip.reg LDN_WDT REG_WDT_CNTR_MODE &&& (lnot (BIT 3) &&& lnot (BIT 4)))),
       RegWrite.dev LDN_WDT REG_WDT_CTRL_STATUS
         (u8 (w.chip.reg LDN_WDT REG_WDT_CTRL_STATUS &&& lnot (BIT 4))),
       RegWrite.dev LDN_WDT REG_WDT_CNTR_VALUE 0xFF,
       RegWrite.dev LDN_WDT REG_WDT_STATUS
         (u8 (u8 (w.chip.reg LDN_WDT REG_WDT_STATUS &&& lnot (BIT 0)) ||| BIT 0)),
       RegWrite.dev LDN_WDT REG_WDT_CNTR_VALUE 0x20] ∧
    counterWrites ((wdt_platform_probe w).2.chip.wlog.drop w.chip.wlog.length) = [0xFF, 0x20] ∧
    (u8 (w.chip.reg LDN_WDT REG_WDT_STATUS &&& lnot (BIT 0))).testBit 0 = false ∧
    (u8 (u8 (w.chip.reg LDN_WDT REG_WDT_STATUS &&& lnot (BIT 0)) ||| BIT 0)).testBit 0 = true ∧
    ((wdt_platform_probe w).2.chip.reg LDN_WDT REG_WDT_STATUS).testBit 0 = true ∧
    ((wdt_platform_probe w).2.chip.reg LDN_WDT REG_WDT_CNTR_MODE).testBit 3 = false ∧
    ((wdt_platform_probe w).2.chip.reg LDN_WDT REG_WDT_CNTR_MODE).testBit 4 = false ∧
    ((wdt_platform_probe w).2.chip.reg LDN_WDT REG_WDT_CTRL_STATUS).testBit 4 = false ∧
    (wdt_platform_probe w).2.chip.reg LDN_WDT REG_WDT_CNTR_VALUE = 32 ∧
    (wdt_platform_probe w).2.held = false ∧
    (wdt_platform_probe w).1 = w.register_ret := by
  obtain ⟨held, ⟨mode, idx, glob, bank, wlog⟩, trace, debug, errs, rr, rg⟩ := w
  simp only at h
  subst h
  rw [chip_id_mk] at hid
  obtain ⟨hret, hheld, _, hchip⟩ :=
    wdt_platform_probe_mk mode idx glob bank wlog trace debug errs rr rg hid
  have hs0 := clear_bit_byte (bank 8 0x30) 0 0 (by decide)
  have hs1 := set_bit0_byte (bank 8 0x30 % 256 &&& lnot (BIT 0)) 0
  have hm3 := clear_bits_byte (bank 8 0xF0) 3 4 3 (by decide) (by decide)
  have hm4 := clear_bits_byte (bank 8 0xF0) 3 4 4 (by decide) (by decide)
  have hc4 := clear_bit_byte (bank 8 0xF2) 4 4 (by decide)
  simp only [ne_eq, not_true_eq_false, decide_False, Bool.and_false, Bool.false_and,
    decide_True, Bool.or_true] at hs0 hs1 hm3 hm4 hc4
  rw [hchip, hret, hheld]
  refine ⟨?_, ?_, ?_, ?_, ?_, ?_, ?_, ?_, ?_, rfl, rfl⟩
  · simp [Chip.reg, u8, REG_LDN, LDN_WDT, REG_WDT_CNTR_VALUE, REG_WDT_STATUS,
      REG_WDT_CNTR_MODE, REG_WDT_CTRL_STATUS]
  · simp [counterWrites, LDN_WDT, REG_WDT_CNTR_VALUE]
  · simpa [Chip.reg, u8, LDN_WDT, REG_WDT_STATUS] using hs0
  · simpa [Chip.reg, u8, LDN_WDT, REG_WDT_STATUS, BIT_zero] using hs1
  · simpa [Chip.reg, u8, LDN_WDT, REG_WDT_STATUS, BIT_zero] using hs1
  · simpa [Chip.reg, u8, LDN_WDT, REG_WDT_CNTR_MODE] using hm3
  · simpa [Chip.reg, u8, LDN_WDT, REG_WDT_CNTR_MODE] using hm4
  · simpa [Chip.reg, u8, LDN_WDT, REG_WDT_CTRL_STATUS] using hc4
  · simp [Chip.reg, u8, LDN_WDT, REG_WDT_CNTR_VALUE]

/-- C7 on a revision B chip whose registers all hold 0x5A. -/
theorem wdt_platform_probe_initializes_witness :
    (w0.held = false ∧ (chip_id w0 = NCT5104D_ID_REV_B ∨ chip_id w0 = NCT5104D_ID_REV_C)) ∧
    counterWrites ((wdt_platform_probe w0).2.chip.wlog.drop w0.chip.wlog.length) = [0xFF, 0x20] ∧
    ((wdt_platform_probe w0).2.chip.reg LDN_WDT REG_WDT_STATUS).testBit 0 = true ∧
    (wdt_platform_probe w0).2.chip.reg LDN_WDT REG_WDT_CNTR_VALUE = 32 :=
  ⟨by decide,
   (wdt_platform_probe_initializes w0 rfl (by decide)).2.1,
   (wdt_platform_probe_initializes w0 rfl (by decide)).2.2.2.2.1,
   (wdt_platform_probe_initializes w0 rfl (by decide)).2.2.2.2.2.2.2.2.1⟩

/-! ### Word read -/

theorem Chip.inb_lt (c : Chip) (port : Nat) : c.inb port < 256 := by
  unfold Chip.inb
  cases c.mode
  · simp
  · simp
  · simp only
    split
    · exact Nat.mod_lt _ (by decide)
    · split
      · unfold Chip.rd Chip.reg
        split <;> exact Nat.mod_lt _ (by decide)
      · decide

/-- C9 as stated fails at the index 255: the second byte written to the index
port is 0, not 255 + 1, because `outb` takes a `u8`. -/
theorem superio_inw_index_wraps :
    (superio_inw 255 wOpen).2.trace = wOpen.trace ++
      [Event.outb 255 REG_IDX, Event.inb REG_VAL 0x5A,
       Event.outb 0 REG_IDX, Event.inb REG_VAL 0x5A] ∧
    ¬ ∃ hi lo, (superio_inw 255 wOpen).2.trace = wOpen.trace ++
      [Event.outb 255 REG_IDX, Event.inb REG_VAL hi,
       Event.outb (255 + 1) REG_IDX, Event.inb REG_VAL lo] := by
  have ht : (superio_inw 255 wOpen).2.trace = wOpen.trace ++
      [Event.outb 255 REG_IDX, Event.inb REG_VAL 0x5A,
       Event.outb 0 REG_IDX, Event.inb REG_VAL 0x5A] := by decide
  refine ⟨ht, ?_⟩
  rintro ⟨hi, lo, h⟩
  rw [ht] at h
  simp at h

/-- C9 amended: `superio_inw r` writes `r mod 256` to the index port, reads a
byte `hi` from the data port, writes `(r + 1) mod 256` to the index port, reads
a byte `lo` from the data port, in that order and nothing else, and returns
`hi * 256 + lo`, which is at most 0xFFFF; in an open session on a revision B
chip, `superio_inw 0x20` reads 0xC4 then 0x52 and returns 0xC452. -/
theorem superio_inw_big_endian (r : Nat) (w : World) :
    (∃ hi lo, hi < 256 ∧ lo < 256 ∧
      (superio_inw r w).2.trace = w.trace ++
        [Event.outb (r % 256) REG_IDX, Event.inb REG_VAL hi,
         Event.outb ((r + 1) % 256) REG_IDX, Event.inb REG_VAL lo] ∧
      (superio_inw r w).1 = hi * 256 + lo) ∧
    (superio_inw r w).1 ≤ 0xFFFF ∧
    ((superio_inw REG_CHIP_ID wOpen).2.trace = wOpen.trace ++
        [Event.outb 0x20 REG_IDX, Event.inb REG_VAL 0xC4,
         Event.outb 0x21 REG_IDX, Event.inb REG_VAL 0x52] ∧
      (superio_inw REG_CHIP_ID wOpen).1 = 0xC452) := by
  have hhi := Chip.inb_lt (w.chip.outb (u8 r) REG_IDX) REG_VAL
  have hlo := Chip.inb_lt ((w.chip.outb (u8 r) REG_IDX).outb (u8 (r + 1)) REG_IDX) REG_VAL
  have hval : (superio_inw r w).1 =
      (w.chip.outb (u8 r) REG_IDX).inb REG_VAL * 256 +
      ((w.chip.outb (u8 r) REG_IDX).outb (u8 (r + 1)) REG_IDX).inb REG_VAL := by
    simp only [superio_inw, outb, inb]
    exact shift_or_bytes _ _ hlo
  refine ⟨⟨_, _, hhi, hlo, ?_, hval⟩, ?_, by decide, by decide⟩
  · simp [superio_inw, outb, inb, u8]
  · rw [hval]
    have h1 : (w.chip.outb (u8 r) REG_IDX).inb REG_VAL ≤ 255 := by omega
    have h2 : ((w.chip.outb (u8 r) REG_IDX).outb (u8 (r + 1)) REG_IDX).inb REG_VAL ≤ 255 := by
      omega
    omega

/-! ### Session bracketing -/

theorem bracketed_busy (w w' : World)
    (ht : w'.trace = w.trace ++ [Event.request false]) (hh : w'.held = w.held) :
    Bracketed w w' := by
  refine ⟨?_, ?_, hh⟩
  · rw [ht]; exact List.prefix_append _ _
  · rw [ht, List.drop_left]; decide

theorem wdt_probe_bracketed (w : World) : Bracketed w (wdt_probe w).2 := by
  cases hh : w.held
  · obtain ⟨held, ⟨mode, idx, glob, bank, wlog⟩, trace, debug, errs, rr, rg⟩ := w
    simp only at hh
    subst hh
    rw [wdt_probe_mk]
    simp [Bracketed, wellBracketed, Phase.run, Phase.step]
  · have he := superio_enter_busy w hh
    exact bracketed_busy w _ (by simp [wdt_probe, he]) (by simp [wdt_probe, he])

theorem wdt_stop_bracketed (wdev : watchdog_device) (w : World) :
    Bracketed w (wdt_stop wdev w).2 := by
  cases hh : w.held
  · obtain ⟨held, ⟨mode, idx, glob, bank, wlog⟩, trace, debug, errs, rr, rg⟩ := w
    simp only at hh
    subst hh
    simp [Bracketed, wellBracketed, Phase.run, Phase.step, wdt_stop, superio_enter_mk,
      wdt_select, superio_select, superio_outb_mk, superio_exit_mk, wr_glob_mk, wr_dev_sel_mk,
      REG_LDN, LDN_WDT, REG_WDT_CNTR_VALUE]
  · have he := superio_enter_busy w hh
    exact bracketed_busy w _ (by simp [wdt_stop, he]) (by simp [wdt_stop, he])

theorem wdt_set_timeout_bracketed (wdev : watchdog_device) (t : Nat) (w : World) :
    Bracketed w (wdt_set_timeout wdev t w).2.2 := by
  by_cases hc : t < wdev.min_timeout ∨ t > wdev.max_timeout
  · simp [Bracketed, wellBracketed, Phase.run, wdt_set_timeout, hc, pr_err]
  · cases hh : w.held
    · obtain ⟨held, ⟨mode, idx, glob, bank, wlog⟩, trace, debug, errs, rr, rg⟩ := w
      simp only at hh
      subst hh
      simp [Bracketed, wellBracketed, Phase.run, Phase.step, wdt_set_timeout, hc,
        superio_enter_mk, wdt_select, superio_select, superio_outb_mk, superio_exit_mk,
        wr_glob_mk, wr_dev_sel_mk, REG_LDN, LDN_WDT, REG_WDT_CNTR_VALUE]
    · have he := superio_enter_busy w hh
      exact bracketed_busy w _ (by simp [wdt_set_timeout, hc, he])
        (by simp [wdt_set_timeout, hc, he])

theorem wdt_get_timeleft_bracketed (wdev : watchdog_device) (w : World) :
    Bracketed w (wdt_get_timeleft wdev w).2 := by
  cases hh : w.held
  · obtain ⟨held, ⟨mode, idx, glob, bank, wlog⟩, trace, debug, errs, rr, rg⟩ := w
    simp only at hh
    subst hh
    cases debug <;>
      simp [Bracketed, wellBracketed, Phase.run, Phase.step, wdt_get_timeleft, superio_enter_mk,
        wdt_select, superio_select, superio_outb_mk, superio_inb_sel_mk, superio_exit_mk,
        wr_glob_mk, wr_dev_sel_mk, pr_debug_reads, REG_LDN, LDN_WDT, REG_WDT_CNTR_VALUE,
        REG_WDT_CNTR_MODE, REG_WDT_CTRL_STATUS]
  · have he := superio_enter_busy w hh
    exact bracketed_busy w _ (by simp [wdt_get_timeleft, he, pr_err])
      (by simp [wdt_get_timeleft, he, pr_err])

theorem wdt_start_bracketed (wdev : watchdog_device) (w : World) :
    Bracketed w (wdt_start wdev w).2 := by
  cases hh : w.held
  · obtain ⟨held, ⟨mode, idx, glob, bank, wlog⟩, trace, debug, errs, rr, rg⟩ := w
    simp only at hh
    subst hh
    cases debug <;>
      simp [Bracketed, wellBracketed, Phase.run, Phase.step, wdt_start, superio_enter_mk,
        wdt_select, superio_select, superio_outb_mk, superio_inb_mk, superio_exit_mk,
        wr_glob_mk, wr_dev_mk, pr_debug_reads, ite_pr_err_mk, ite_pr_err_mk2, REG_LDN, LDN_WDT,
        REG_WDT_CNTR_VALUE, REG_WDT_STATUS, REG_WDT_CNTR_MODE, REG_WDT_CTRL_STATUS]
  · have he := superio_enter_busy w hh
    exact bracketed_busy w _ (by simp [wdt_start, he]) (by simp [wdt_start, he])

theorem wdt_platform_probe_bracketed (w : World) : Bracketed w (wdt_platform_probe w).2 := by
  cases hh : w.held
  · obtain ⟨held, ⟨mode, idx, glob, bank, wlog⟩, trace, debug, errs, rr, rg⟩ := w
    simp only at hh
    subst hh
    by_cases hid : glob 0x20 % 256 * 256 + glob 0x21 % 256 = 0xC452 ∨
        glob 0x20 % 256 * 256 + glob 0x21 % 256 = 0xC453
    · cases debug <;> by_cases hr : rr = 0 <;>
        simp [Bracketed, wellBracketed, Phase.run, Phase.step, wdt_platform_probe, wdt_probe_mk,
          hid, superio_enter_mk, wdt_select, superio_select, superio_outb_mk,
          superio_inb_sel_mk, superio_exit_mk, wr_glob_mk, wr_dev_sel_mk, pr_debug_reads,
          watchdog_register_device, pr_err, hr, u8, REG_LDN, LDN_WDT, REG_WDT_CNTR_VALUE,
          REG_WDT_STATUS, REG_WDT_CNTR_MODE, REG_WDT_CTRL_STATUS]
    · simp [Bracketed, wellBracketed, Phase.run, Phase.step, wdt_platform_probe, wdt_probe_mk,
        hid]
  · have he := superio_enter_busy w hh
    exact bracketed_busy w _ (by simp [wdt_platform_probe, wdt_probe, he])
      (by simp [wdt_platform_probe, wdt_probe, he])

/-- C8: for every initial world (region free or reserved, any chip mode,
`pr_debug` on or off), each of `wdt_probe`, `wdt_start`, `wdt_stop`,
`wdt_set_timeout`, `wdt_get_timeleft` and `wdt_platform_probe` only appends to
the trace, and what it appends is a concatenation of complete sessions: a
granted request, at once 0x87 twice on the index port, then accesses to the
index and data ports only, then 0xAA on the index port, at once the release;
outside these nothing but refused requests. The region is held on return
exactly if another owner held it before the call. -/
theorem sessions_well_bracketed (wdev : watchdog_device) (t : Nat) (w : World) :
    Bracketed w (wdt_probe w).2 ∧
    Bracketed w (wdt_start wdev w).2 ∧
    Bracketed w (wdt_stop wdev w).2 ∧
    Bracketed w (wdt_set_timeout wdev t w).2.2 ∧
    Bracketed w (wdt_get_timeleft wdev w).2 ∧
    Bracketed w (wdt_platform_probe w).2 :=
  ⟨wdt_probe_bracketed w, wdt_start_bracketed wdev w, wdt_stop_bracketed wdev w,
   wdt_set_timeout_bracketed wdev t w, wdt_get_timeleft_bracketed wdev w,
   wdt_platform_probe_bracketed w⟩

end NCT5104
